import Mathlib

/-!
Verification of the Cardinal GaragePro estimate engine: the response
computation of the `POST /inference` handler in `src/server.js`.

Modelling choices (shallow embedding):
* JavaScript numbers are modelled as exact rationals (`ℚ`), with `NaN`
  tracked explicitly by the type `JSNum`.  The decimal literals of the
  source (`0.03`, `1.25`) are exact rationals here.
* JSON field values that can arrive in `req.body.inputs` are modelled by
  `JSVal` (absent, string, or number).
* `Number(s)` on a string is modelled by a decimal-numeral parser
  (optional sign, digits, optional fraction); strings outside this
  subset (exponents, hex, `"Infinity"`) are not modelled and parse to
  `NaN`, which agrees with JavaScript on every input used below.
* `.toLowerCase()` is modelled by mapping `Char.toLower` (ASCII) over
  the characters; calling it on a number or `undefined` throws a
  `TypeError`, modelled by `Except.error ()`.
-/

namespace CardinalEstimate

/-- A JSON-ish value as it can appear in a request field: absent
(`undefined`), a string, or a number. -/
inductive JSVal where
  | undef
  | str (s : String)
  | num (q : ℚ)
deriving DecidableEq

/-- A JavaScript number: either `NaN` or an exact rational. -/
inductive JSNum where
  | nan
  | num (q : ℚ)
deriving DecidableEq

/-- JavaScript truthiness of a `JSVal`: `undefined`, `""` and `0` are
falsy, everything else is truthy. -/
def truthy : JSVal → Bool
  | .undef => false
  | .str s => decide (s ≠ "")
  | .num q => decide (q ≠ 0)

/-- JavaScript `v || d` (used by the handler as `inputs.x || 0`). -/
def jsOr (v d : JSVal) : JSVal := if truthy v then v else d

/-- Truthiness of a number (`NaN` and `0` are falsy). -/
def ntruthy : JSNum → Bool
  | .nan => false
  | .num q => decide (q ≠ 0)

/-- JavaScript `+` on numbers; `NaN` propagates. -/
def nadd : JSNum → JSNum → JSNum
  | .num a, .num b => .num (a + b)
  | _, _ => .nan

/-- JavaScript `*` on numbers; `NaN` propagates. -/
def nmul : JSNum → JSNum → JSNum
  | .num a, .num b => .num (a * b)
  | _, _ => .nan

/-- `Math.max`; `NaN` propagates. -/
def nmax : JSNum → JSNum → JSNum
  | .num a, .num b => .num (max a b)
  | _, _ => .nan

/-- `Math.min`; `NaN` propagates. -/
def nmin : JSNum → JSNum → JSNum
  | .num a, .num b => .num (min a b)
  | _, _ => .nan

/-- `Math.round`: round half toward positive infinity, i.e. `⌊q + 1/2⌋`;
`NaN` propagates. -/
def nround : JSNum → JSNum
  | .nan => .nan
  | .num q => .num ((⌊q + 1/2⌋ : ℤ) : ℚ)

/-- Print a number the way a JavaScript template literal does on the
integer-valued numbers produced by `Math.round` (`NaN` prints as
`"NaN"`). -/
def nToString : JSNum → String
  | .nan => "NaN"
  | .num q => if q.den = 1 then toString q.num else toString q

/-- Digit-string value accumulator (used by the `Number(...)` model). -/
def parseDigits : List Char → ℕ → Option ℕ
  | [], acc => some acc
  | c :: cs, acc =>
    if c.isDigit then parseDigits cs (acc * 10 + (c.toNat - 48)) else none

/-- Unsigned decimal numeral: digits with an optional single point;
at least one digit must be present. -/
def parseUnsigned (l : List Char) : Option ℚ :=
  match l.splitOn '.' with
  | [a] =>
    if a = [] then none
    else (parseDigits a 0).map (fun n => (n : ℚ))
  | [a, b] =>
    if a = [] ∧ b = [] then none
    else
      match parseDigits a 0, parseDigits b 0 with
      | some n, some m => some ((n : ℚ) + (m : ℚ) / (10 : ℚ) ^ b.length)
      | _, _ => none
  | _ => none

/-- Signed decimal numeral. -/
def parseSigned (l : List Char) : Option ℚ :=
  match l with
  | '-' :: rest => (parseUnsigned rest).map (fun q => -q)
  | '+' :: rest => parseUnsigned rest
  | _ => parseUnsigned l

/-- Strip leading and trailing whitespace. -/
def trimChars (l : List Char) : List Char :=
  ((l.dropWhile Char.isWhitespace).reverse.dropWhile Char.isWhitespace).reverse

/-- `Number(s)` for a string `s`: whitespace-trimmed; empty means `0`;
a decimal numeral means its value; anything else is `NaN`. -/
def jsStringToNumber (s : String) : JSNum :=
  let t := trimChars s.data
  if t = [] then .num 0
  else
    match parseSigned t with
    | some q => .num q
    | none => .nan

/-- `Number(v)` for a `JSVal` (`Number(undefined)` is `NaN`). -/
def jsToNumber : JSVal → JSNum
  | .undef => .nan
  | .num q => .num q
  | .str s => jsStringToNumber s

/-- `.toLowerCase()`: defined on strings, a `TypeError` otherwise. -/
def toLowerJS : JSVal → Except Unit String
  | .str s => .ok ⟨s.data.map Char.toLower⟩
  | _ => .error ()

/-- Lower-case a Lean string (ASCII), character by character. -/
def lowerStr (s : String) : String := ⟨s.data.map Char.toLower⟩

/-- Does `pat` occur at the head of `l`? -/
def matchAt : List Char → List Char → Bool
  | [], _ => true
  | _ :: _, [] => false
  | c :: cs, d :: ds => c == d && matchAt cs ds

/-- Does `pat` occur anywhere in `l`? -/
def occursIn (pat : List Char) : List Char → Bool
  | [] => matchAt pat []
  | d :: ds => matchAt pat (d :: ds) || occursIn pat ds

/-- JavaScript `s.includes(pat)`: substring containment. -/
def strIncludes (s pat : String) : Bool := occursIn pat.data s.data

/-- The raw `inputs` object of the request body. -/
structure Inputs where
  areaSqFt : JSVal := .undef
  shrubCount : JSVal := .undef
  bedSize : JSVal := .undef
  material : JSVal := .undef
deriving DecidableEq

/-- The raw request body (`none` models an absent field, so that the
destructuring defaults of the handler apply). -/
structure Body where
  mode : Option String := none
  service : Option String := none
  inputs : Inputs := {}
  notes : Option String := none
  photoSummary : Option String := none
deriving DecidableEq

/-- The response object built by the handler. -/
structure Resp where
  price : JSNum
  upsell : String
  summary : String
  closePct : ℤ
  upsellPct : ℤ
  riskPct : ℤ
deriving DecidableEq

/-- Is a raw field value a string or absent (so that `.toLowerCase()`
after `|| ""` cannot throw)? -/
def strOrAbsent : JSVal → Bool
  | .num _ => false
  | _ => true

/-- Lower-cased concatenation `(notes + " " + photoSummary).toLowerCase()`. -/
def lowerCat (notes photoSummary : String) : String :=
  lowerStr (notes ++ " " ++ photoSummary)

/-- The risk-keyword test of the handler (line 110). -/
def hasRiskWord (lower : String) : Bool :=
  strIncludes lower "overgrown" || strIncludes lower "patchy" ||
    strIncludes lower "neglected"

/-- The clean-keyword test of the handler (line 113). -/
def hasCleanWord (lower : String) : Bool :=
  strIncludes lower "clean" || strIncludes lower "fresh" ||
    strIncludes lower "sharp"

/-- The material upsell test of the handler (line 116). -/
def hasMatUpsell (material : String) : Bool :=
  strIncludes material "premium" || strIncludes material "rock"

/-- The landscaping base computation (lines 96-101): start at 120, add the
`bedSize` surcharges, add `shrubCount * 6`, then multiply by 1.25 when
`material` contains `"premium"` or `"stone"`. -/
def landBase (bedSize material : String) (shrubCount : JSNum) : JSNum :=
  let b0 : JSNum := .num 120
  let b1 := if bedSize = "small" then nadd b0 (.num 60) else b0
  let b2 := if bedSize = "medium" then nadd b1 (.num 140) else b1
  let b3 := if bedSize = "large" then nadd b2 (.num 260) else b2
  let b4 := nadd b3 (nmul shrubCount (.num 6))
  if strIncludes material "premium" || strIncludes material "stone" then
    nmul b4 (.num 1.25)
  else b4

/-- The base-price selection (lines 92-104). -/
def basePrice (mode service : String) (areaSqFt shrubCount : JSNum)
    (bedSize material : String) : JSNum :=
  if mode = "mowing" ∨ service = "mowing" then
    if ntruthy areaSqFt then
      nmax (.num 35) (nmin (.num 125) (nadd (.num 25) (nmul areaSqFt (.num 0.03))))
    else .num 45
  else if mode = "landscaping" ∨ service = "landscaping" then
    landBase bedSize material shrubCount
  else .num 75

/-- The response computation of the handler (lines 91-141), after the
input coercions: `mode`/`service`/`notes`/`photoSummary` defaulted,
`areaSqFt`/`shrubCount` converted to numbers, `bedSize`/`material`
lower-cased strings. -/
def core (mode service notes photoSummary : String)
    (areaSqFt shrubCount : JSNum) (bedSize material : String) : Resp :=
  let base := basePrice mode service areaSqFt shrubCount bedSize material
  let price := nround (nmax (.num 45) base)
  let lower := lowerCat notes photoSummary
  let closePct0 : ℤ := 72
  let upsellPct0 : ℤ := 40
  let riskPct0 : ℤ := 18
  let riskPct1 := if hasRiskWord lower then riskPct0 + 18 else riskPct0
  let upsellPct1 := if hasRiskWord lower then upsellPct0 + 16 else upsellPct0
  let closePct1 := if hasCleanWord lower then closePct0 + 10 else closePct0
  let upsellPct2 := if hasMatUpsell material then upsellPct1 + 20 else upsellPct1
  let closePct := max 5 (min 98 closePct1)
  let upsellPct := max 5 (min 98 upsellPct2)
  let riskPct := max 3 (min 95 riskPct1)
  let summary :=
    ("Estimate: ~$" ++ nToString price ++ ".") ++ " " ++
    (if upsellPct > 40 then "Solid upsell signal — highlight quality and longevity."
     else "Keep it simple; lead with reliability.") ++ " " ++
    (if riskPct > 35 then "Flag risk items before starting to avoid rework."
     else "Looks clean for one-visit or recurring setup.")
  let upsell := "+" ++ nToString (nround (nmul (.num ((upsellPct : ℚ) / 100)) price))
  { price := price, upsell := upsell, summary := summary,
    closePct := closePct, upsellPct := upsellPct, riskPct := riskPct }

/-- The full handler computation on a raw body: perform the coercions of
lines 77-89 (where `.toLowerCase()` can throw) and then build the
response. -/
def run (body : Body) : Except Unit Resp :=
  match toLowerJS (jsOr body.inputs.bedSize (.str "")) with
  | .error e => .error e
  | .ok bedSize =>
    match toLowerJS (jsOr body.inputs.material (.str "")) with
    | .error e => .error e
    | .ok material =>
      .ok (core (body.mode.getD "generic") (body.service.getD "")
        (body.notes.getD "") (body.photoSummary.getD "")
        (jsToNumber (jsOr body.inputs.areaSqFt (.num 0)))
        (jsToNumber (jsOr body.inputs.shrubCount (.num 0)))
        bedSize material)

/-- The spec's `EstimateRequest` data model (§3): `mode` defaults to
`"generic"`, the numeric fields are optional numbers, the string fields
optional strings. -/
structure EstimateRequest where
  mode : String := "generic"
  service : String := ""
  areaSqFt : Option ℚ := none
  shrubCount : Option ℚ := none
  bedSize : Option String := none
  material : Option String := none
  notes : String := ""
  photoSummary : String := ""
deriving DecidableEq

/-- Inject an optional number into a raw field value. -/
def numField : Option ℚ → JSVal
  | none => .undef
  | some q => .num q

/-- Inject an optional string into a raw field value. -/
def strField : Option String → JSVal
  | none => .undef
  | some s => .str s

/-- The raw request body corresponding to an `EstimateRequest`. -/
def toBody (r : EstimateRequest) : Body :=
  { mode := some r.mode, service := some r.service,
    inputs :=
      { areaSqFt := numField r.areaSqFt, shrubCount := numField r.shrubCount,
        bedSize := strField r.bedSize, material := strField r.material },
    notes := some r.notes, photoSummary := some r.photoSummary }

/-- The engine on the spec's data model: `core` at the coerced inputs. -/
def engine (r : EstimateRequest) : Resp :=
  core r.mode r.service r.notes r.photoSummary
    (.num (r.areaSqFt.getD 0)) (.num (r.shrubCount.getD 0))
    (lowerStr (r.bedSize.getD "")) (lowerStr (r.material.getD ""))

/-- `clamp(x, lo, hi)` as the spec writes it. -/
def specClamp (x lo hi : ℚ) : ℚ := max lo (min hi x)

/-- Modelled from the spec (§4.1 step 2 and step 3, and C4): the mowing
price, `base = clamp(25 + areaSqFt*0.03, 35, 125)` when `areaSqFt > 0`,
else `45`, then `price = round(max(45, base))`. -/
def specMowingPrice (areaSqFt : ℚ) : ℤ :=
  let base : ℚ := if 0 < areaSqFt then specClamp (25 + areaSqFt * 0.03) 35 125 else 45
  ⌊max 45 base + 1/2⌋

/-- Modelled from the spec (§4.1 step 2 and step 3, and C5): the
landscaping price, `base = (120 + bedSize surcharge + shrubCount*6)`,
multiplied by `1.25` when `material` contains `"premium"` or `"stone"`,
then `price = round(max(45, base))`. -/
def specLandscapingPrice (bedSize material : String) (shrubCount : ℚ) : ℤ :=
  let b0 : ℚ := 120 + (if bedSize = "small" then 60 else 0) +
    (if bedSize = "medium" then 140 else 0) +
    (if bedSize = "large" then 260 else 0) + shrubCount * 6
  let base := if strIncludes material "premium" || strIncludes material "stone" then
    b0 * 1.25 else b0
  ⌊max 45 base + 1/2⌋

section Lemmas

/-- Coercing an optional numeric field: `Number(v || 0)` is the number
itself, or `0` when the field is absent. -/
theorem coerce_num (o : Option ℚ) :
    jsToNumber (jsOr (numField o) (.num 0)) = .num (o.getD 0) := by
  rcases o with _ | q
  · rfl
  · by_cases h : q = 0
    · subst h; rfl
    · simp [numField, jsOr, truthy, h, jsToNumber]

/-- Coercing an optional string field: `(v || "").toLowerCase()` never
throws and gives the lower-cased string (or `""` when absent). -/
theorem coerce_str (o : Option String) :
    toLowerJS (jsOr (strField o) (.str "")) = .ok (lowerStr (o.getD "")) := by
  rcases o with _ | s
  · rfl
  · by_cases h : s = ""
    · subst h; rfl
    · simp [strField, jsOr, truthy, h, toLowerJS, lowerStr]

/-- On bodies coming from the spec's data model, the handler never
throws and computes `engine`. -/
theorem run_toBody (r : EstimateRequest) : run (toBody r) = .ok (engine r) := by
  simp only [run, toBody, coerce_num, coerce_str, engine, Option.getD_some]

theorem core_price (m s n p : String) (a c : JSNum) (bd mt : String) :
    (core m s n p a c bd mt).price = nround (nmax (.num 45) (basePrice m s a c bd mt)) := rfl

theorem core_closePct (m s n p : String) (a c : JSNum) (bd mt : String) :
    (core m s n p a c bd mt).closePct =
      max 5 (min 98 (if hasCleanWord (lowerCat n p) then 72 + 10 else 72)) := rfl

theorem core_upsellPct (m s n p : String) (a c : JSNum) (bd mt : String) :
    (core m s n p a c bd mt).upsellPct =
      max 5 (min 98 (if hasMatUpsell mt then
        (if hasRiskWord (lowerCat n p) then 40 + 16 else 40) + 20
      else
        (if hasRiskWord (lowerCat n p) then 40 + 16 else 40))) := rfl

theorem core_riskPct (m s n p : String) (a c : JSNum) (bd mt : String) :
    (core m s n p a c bd mt).riskPct =
      max 3 (min 95 (if hasRiskWord (lowerCat n p) then 18 + 18 else 18)) := rfl

theorem core_upsell (m s n p : String) (a c : JSNum) (bd mt : String) :
    (core m s n p a c bd mt).upsell =
      "+" ++ nToString (nround (nmul
        (.num (((core m s n p a c bd mt).upsellPct : ℚ) / 100))
        (core m s n p a c bd mt).price)) := rfl

theorem nadd_num (a b : ℚ) : nadd (.num a) (.num b) = .num (a + b) := rfl

theorem nmul_num (a b : ℚ) : nmul (.num a) (.num b) = .num (a * b) := rfl

theorem ite_num (c : Prop) [Decidable c] (x y : ℚ) :
    (if c then JSNum.num x else JSNum.num y) = .num (if c then x else y) :=
  (apply_ite JSNum.num c x y).symm

/-- Closed form of the landscaping base on a non-`NaN` shrub count. -/
theorem landBase_eq (bed mat : String) (s : ℚ) :
    landBase bed mat (.num s) =
      .num ((120 + (if bed = "small" then (60 : ℚ) else 0) +
          (if bed = "medium" then (140 : ℚ) else 0) +
          (if bed = "large" then (260 : ℚ) else 0) + s * 6) *
        (if strIncludes mat "premium" || strIncludes mat "stone" then 1.25 else 1)) := by
  simp only [landBase, nadd_num, nmul_num, ite_num, JSNum.num.injEq]
  split_ifs <;> ring

/-- Closed form of the mowing base on a non-`NaN` area. -/
theorem mowBase_eq (a : ℚ) :
    (if ntruthy (.num a) then
        nmax (.num 35) (nmin (.num 125) (nadd (.num 25) (nmul (.num a) (.num 0.03))))
      else .num 45) =
      .num (if a ≠ 0 then max 35 (min 125 (25 + a * 0.03)) else 45) := by
  by_cases h : a = 0 <;> simp [ntruthy, h, nmax, nmin, nadd, nmul]

/-- On numeric inputs the base price never contains `NaN`. -/
theorem basePrice_num (mode service : String) (a c : ℚ) (bed mat : String) :
    ∃ b : ℚ, basePrice mode service (.num a) (.num c) bed mat = .num b := by
  unfold basePrice
  split
  · rw [mowBase_eq]; exact ⟨_, rfl⟩
  · split
    · rw [landBase_eq]; exact ⟨_, rfl⟩
    · exact ⟨75, rfl⟩

/-- Rounding `max 45 base` yields an integer at least `45`. -/
theorem round_max45 (b : ℚ) :
    nround (nmax (.num 45) (.num b)) = .num ((⌊max 45 b + 1/2⌋ : ℤ) : ℚ) ∧
      45 ≤ ⌊max 45 b + 1/2⌋ := by
  refine ⟨rfl, ?_⟩
  rw [Int.le_floor]
  have h1 : (45 : ℚ) ≤ max 45 b := le_max_left _ _
  push_cast
  linarith

theorem nmax_num (a b : ℚ) : nmax (.num a) (.num b) = .num (max a b) := rfl

theorem nround_num (q : ℚ) : nround (.num q) = .num ((⌊q + 1/2⌋ : ℤ) : ℚ) := rfl

theorem nToString_int (k : ℤ) : nToString (.num (k : ℚ)) = toString k := by
  simp [nToString, Rat.den_intCast, Rat.num_intCast]

/-- The price computed by the mowing branch agrees with the spec's
mowing formula for every (rational) area, including `areaSqFt < 0`,
where the branch clamps to 35 and the spec takes 45 but the final
`max 45` erases the difference. -/
theorem mow_price_eq (a : ℚ) :
    (⌊max 45 (if a ≠ 0 then max 35 (min 125 (25 + a * 0.03)) else 45) + 1/2⌋ : ℤ) =
      specMowingPrice a := by
  simp only [specMowingPrice, specClamp]
  rcases lt_trichotomy a 0 with h | h | h
  · rw [if_pos (show a ≠ 0 from ne_of_lt h), if_neg (not_lt.mpr h.le)]
    have hneg : a * 0.03 < 0 := mul_neg_of_neg_of_pos h (by norm_num)
    have hm : min 125 (25 + a * 0.03) ≤ 35 :=
      le_trans (min_le_right _ _) (by linarith)
    rw [max_eq_left hm, max_eq_left (by norm_num : (35 : ℚ) ≤ 45), max_self]
  · subst h; norm_num
  · rw [if_pos (ne_of_gt h), if_pos h]

/-- Engine price on a mowing-case request. -/
theorem engine_mow_price (r : EstimateRequest) (a : ℚ)
    (hm : r.mode = "mowing" ∨ r.service = "mowing") (ha : r.areaSqFt = some a) :
    (engine r).price = .num ((specMowingPrice a : ℤ) : ℚ) := by
  have hp : (engine r).price =
      nround (nmax (.num 45) (basePrice r.mode r.service
        (.num (r.areaSqFt.getD 0)) (.num (r.shrubCount.getD 0))
        (lowerStr (r.bedSize.getD "")) (lowerStr (r.material.getD "")))) := rfl
  rw [hp, ha]
  simp only [Option.getD_some, basePrice]
  rw [if_pos hm, mowBase_eq, nmax_num, nround_num]
  exact congrArg (fun k : ℤ => JSNum.num (k : ℚ)) (mow_price_eq a)

/-- The price computed by the landscaping branch agrees with the spec's
landscaping formula. -/
theorem land_price_eq (bed mat : String) (c : ℚ) :
    (⌊max 45 ((120 + (if bed = "small" then (60 : ℚ) else 0) +
        (if bed = "medium" then (140 : ℚ) else 0) +
        (if bed = "large" then (260 : ℚ) else 0) + c * 6) *
      (if strIncludes mat "premium" || strIncludes mat "stone" then 1.25 else 1)) + 1/2⌋ : ℤ) =
      specLandscapingPrice bed mat c := by
  simp only [specLandscapingPrice]
  split_ifs <;> first | rfl | rw [mul_one]

/-- Engine price on a landscaping-case request. -/
theorem engine_land_price (r : EstimateRequest) (c : ℚ)
    (hm : ¬(r.mode = "mowing" ∨ r.service = "mowing"))
    (hl : r.mode = "landscaping" ∨ r.service = "landscaping")
    (hc : r.shrubCount = some c) :
    (engine r).price = .num ((specLandscapingPrice
      (lowerStr (r.bedSize.getD "")) (lowerStr (r.material.getD "")) c : ℤ) : ℚ) := by
  have hp : (engine r).price =
      nround (nmax (.num 45) (basePrice r.mode r.service
        (.num (r.areaSqFt.getD 0)) (.num (r.shrubCount.getD 0))
        (lowerStr (r.bedSize.getD "")) (lowerStr (r.material.getD "")))) := rfl
  rw [hp, hc]
  simp only [Option.getD_some, basePrice]
  rw [if_neg hm, if_pos hl, landBase_eq, nmax_num, nround_num]
  exact congrArg (fun k : ℤ => JSNum.num (k : ℚ)) (land_price_eq _ _ c)

/-- The integer clamp `max lo (min hi x)` lands in `[lo, hi]`. -/
theorem clamp_bounds (lo hi x : ℤ) (h : lo ≤ hi) :
    lo ≤ max lo (min hi x) ∧ max lo (min hi x) ≤ hi :=
  ⟨le_max_left _ _, max_le h (min_le_left _ _)⟩

/-- `toLowerCase` after `|| ""` succeeds on any string-or-absent value. -/
theorem toLowerJS_ok (v : JSVal) (hv : strOrAbsent v = true) :
    ∃ s : String, toLowerJS (jsOr v (.str "")) = .ok s := by
  cases v with
  | undef => exact ⟨_, rfl⟩
  | str s =>
    by_cases h : s = ""
    · subst h; exact ⟨_, rfl⟩
    · refine ⟨lowerStr s, ?_⟩
      have : jsOr (.str s) (.str "") = .str s := by
        simp [jsOr, truthy, h]
      rw [this]
      rfl
  | num q => simp [strOrAbsent] at hv

end Lemmas

section Claims

/-- C1: for every `EstimateRequest` the handler succeeds and the `price`
field of the response is an integer at least 45. -/
theorem price_int_ge_45 (r : EstimateRequest) :
    ∃ n : ℤ, run (toBody r) = .ok (engine r) ∧
      (engine r).price = .num (n : ℚ) ∧ 45 ≤ n := by
  obtain ⟨b, hb⟩ := basePrice_num r.mode r.service (r.areaSqFt.getD 0)
    (r.shrubCount.getD 0) (lowerStr (r.bedSize.getD "")) (lowerStr (r.material.getD ""))
  have hp : (engine r).price =
      nround (nmax (.num 45) (basePrice r.mode r.service
        (.num (r.areaSqFt.getD 0)) (.num (r.shrubCount.getD 0))
        (lowerStr (r.bedSize.getD "")) (lowerStr (r.material.getD "")))) := rfl
  exact ⟨⌊max 45 b + 1/2⌋, run_toBody r,
    by rw [hp, hb]; exact (round_max45 b).1, (round_max45 b).2⟩

/-- C2 counterexample: the truthy non-numeric string `"abc"` is coerced
by `Number(v || 0)` to `NaN`, not `0`, and a landscaping request with
`shrubCount = "abc"` produces a response whose `price` is `NaN` — not a
valid integer price. -/
theorem malformed_coercion_cex :
    jsToNumber (jsOr (.str "abc") (.num 0)) = JSNum.nan ∧
      JSNum.nan ≠ JSNum.num 0 ∧
      (run { mode := some "landscaping",
             inputs := { shrubCount := .str "abc" } }).toOption.map Resp.price =
        some JSNum.nan := by
  refine ⟨by decide, by decide, by decide⟩

/-- C2 amended: a falsy numeric field value (absent, empty string, or 0)
coerces to 0; a truthy string that is not a decimal numeral coerces to
`NaN`; and whenever `bedSize` and `material` are strings or absent the
computation never throws and always produces a response (though a `NaN`
numeric field can propagate into that response's price). -/
theorem coercion_amended :
    (∀ v : JSVal, truthy v = false → jsToNumber (jsOr v (.num 0)) = .num 0) ∧
    (∀ s : String, jsStringToNumber s = .nan →
      jsToNumber (jsOr (.str s) (.num 0)) = .nan) ∧
    (∀ b : Body, strOrAbsent b.inputs.bedSize = true →
      strOrAbsent b.inputs.material = true → ∃ resp : Resp, run b = .ok resp) := by
  refine ⟨?_, ?_, ?_⟩
  · intro v hv
    simp [jsOr, hv, jsToNumber]
  · intro s hs
    have hne : s ≠ "" := by
      intro h
      rw [h] at hs
      exact absurd hs (by decide)
    have : jsOr (.str s) (.num 0) = .str s := by simp [jsOr, truthy, hne]
    rw [this]
    exact hs
  · intro b h1 h2
    obtain ⟨s1, e1⟩ := toLowerJS_ok _ h1
    obtain ⟨s2, e2⟩ := toLowerJS_ok _ h2
    refine ⟨core (b.mode.getD "generic") (b.service.getD "")
      (b.notes.getD "") (b.photoSummary.getD "")
      (jsToNumber (jsOr b.inputs.areaSqFt (.num 0)))
      (jsToNumber (jsOr b.inputs.shrubCount (.num 0))) s1 s2, ?_⟩
    simp only [run, e1, e2]

theorem coercion_amended_witness :
    jsToNumber (jsOr .undef (.num 0)) = JSNum.num 0 ∧
      jsToNumber (jsOr (.str "abc") (.num 0)) = JSNum.nan ∧
      ∃ resp : Resp, run {} = .ok resp :=
  ⟨coercion_amended.1 .undef rfl, coercion_amended.2.1 "abc" (by decide),
    coercion_amended.2.2 {} rfl rfl⟩

/-- C3 counterexample: a request with `mode = "landscaping"` and
`service = "mowing"` (and `bedSize = "large"`) is priced at 45 by the
mowing rule, not at 380 as the landscaping rule would give, because the
mowing test `mode === "mowing" || service === "mowing"` runs first. -/
theorem service_overrides_mode_cex :
    (engine { mode := "landscaping", service := "mowing", areaSqFt := some 0,
              bedSize := some "large" }).price = .num 45 ∧
      specLandscapingPrice "large" "" 0 = 380 ∧ (45 : ℚ) ≠ 380 := by
  refine ⟨?_, ?_, by norm_num⟩
  · have h := engine_mow_price
      { mode := "landscaping", service := "mowing", areaSqFt := some 0,
        bedSize := some "large" } 0 (Or.inr rfl) rfl
    rw [h]
    have hs : specMowingPrice 0 = 45 := by
      norm_num [specMowingPrice, specClamp, max_def, min_def]
    rw [hs]
    norm_num
  · have h1 : strIncludes "" "premium" = false := rfl
    have h2 : strIncludes "" "stone" = false := rfl
    simp +decide only [specLandscapingPrice, h1, h2]
    norm_num [max_def, min_def]

/-- C3 amended: `service = "mowing"` selects the mowing pricing rule
regardless of `mode` — in particular a request with
`mode = "landscaping"` and `service = "mowing"` is priced by the mowing
rule, because the mowing test runs before the landscaping test. -/
theorem service_mowing_selects_mowing (r : EstimateRequest) (a : ℚ)
    (hs : r.service = "mowing") (ha : r.areaSqFt = some a) :
    (engine r).price = .num ((specMowingPrice a : ℤ) : ℚ) :=
  engine_mow_price r a (Or.inr hs) ha

theorem service_mowing_selects_mowing_witness :
    (engine { mode := "landscaping", service := "mowing",
              areaSqFt := some 0, bedSize := some "large" }).price =
      .num ((specMowingPrice 0 : ℤ) : ℚ) :=
  service_mowing_selects_mowing _ 0 rfl rfl

/-- C4: on every mowing-case request with a numeric area the engine's
price equals the spec's mowing formula (`clamp(25 + areaSqFt*0.03, 35,
125)` when the area is positive, 45 otherwise, then
`round(max(45, ·))`), and the spec's examples hold: areas 0, 2000 and
10000 price at 45, 85 and 125. -/
theorem mowing_price_spec (r : EstimateRequest) (a : ℚ)
    (hm : r.mode = "mowing" ∨ r.service = "mowing") (ha : r.areaSqFt = some a) :
    (engine r).price = .num ((specMowingPrice a : ℤ) : ℚ) ∧
      specMowingPrice 0 = 45 ∧ specMowingPrice 2000 = 85 ∧
      specMowingPrice 10000 = 125 :=
  ⟨engine_mow_price r a hm ha,
    by norm_num [specMowingPrice, specClamp, max_def, min_def],
    by norm_num [specMowingPrice, specClamp, max_def, min_def],
    by norm_num [specMowingPrice, specClamp, max_def, min_def]⟩

theorem mowing_price_spec_witness :
    (engine { mode := "mowing", areaSqFt := some 2000 }).price =
        .num ((specMowingPrice 2000 : ℤ) : ℚ) ∧
      specMowingPrice 2000 = 85 :=
  ⟨(mowing_price_spec { mode := "mowing", areaSqFt := some 2000 } 2000
      (Or.inl rfl) rfl).1,
    by norm_num [specMowingPrice, specClamp, max_def, min_def]⟩

/-- C5: on every landscaping-case request with a numeric shrub count the
engine's price equals the spec's landscaping formula (120 plus the
bedSize surcharge plus `shrubCount * 6`, times 1.25 when the lower-cased
material contains `"premium"` or `"stone"`), and the spec's example
holds: bedSize `"large"`, 10 shrubs and material `"premium stone"`
price at 550. -/
theorem landscaping_price_spec (r : EstimateRequest) (c : ℚ)
    (hm : ¬(r.mode = "mowing" ∨ r.service = "mowing"))
    (hl : r.mode = "landscaping" ∨ r.service = "landscaping")
    (hc : r.shrubCount = some c) :
    (engine r).price = .num ((specLandscapingPrice
        (lowerStr (r.bedSize.getD "")) (lowerStr (r.material.getD "")) c : ℤ) : ℚ) ∧
      specLandscapingPrice "large" "premium stone" 10 = 550 := by
  refine ⟨engine_land_price r c hm hl hc, ?_⟩
  have h1 : strIncludes "premium stone" "premium" = true := rfl
  simp +decide only [specLandscapingPrice, h1]
  norm_num [max_def, min_def]

theorem landscaping_price_spec_witness :
    (engine { mode := "landscaping", shrubCount := some 10,
              bedSize := some "large",
              material := some "premium stone" }).price = .num ((550 : ℤ) : ℚ) := by
  have h := (landscaping_price_spec
    { mode := "landscaping", shrubCount := some 10, bedSize := some "large",
      material := some "premium stone" } 10 (by decide) (Or.inl rfl) rfl).1
  simp only [Option.getD_some] at h
  rw [show lowerStr "large" = "large" from by decide,
    show lowerStr "premium stone" = "premium stone" from by decide] at h
  rw [h]
  have hs : specLandscapingPrice "large" "premium stone" 10 = 550 := by
    have h1 : strIncludes "premium stone" "premium" = true := rfl
    simp +decide only [specLandscapingPrice, h1]
    norm_num [max_def, min_def]
  rw [hs]

/-- C6: for every `EstimateRequest` the `upsell` field is `"+"` followed
by a non-negative integer, namely `round(upsellPct/100 * price)`
computed from the clamped `upsellPct` that appears in the response. -/
theorem upsell_field_spec (r : EstimateRequest) :
    ∃ p n : ℤ, (engine r).price = .num (p : ℚ) ∧
      (engine r).upsell = "+" ++ toString n ∧
      n = ⌊((engine r).upsellPct : ℚ) / 100 * (p : ℚ) + 1/2⌋ ∧ 0 ≤ n := by
  obtain ⟨b, hb⟩ := basePrice_num r.mode r.service (r.areaSqFt.getD 0)
    (r.shrubCount.getD 0) (lowerStr (r.bedSize.getD "")) (lowerStr (r.material.getD ""))
  have hp : (engine r).price =
      nround (nmax (.num 45) (basePrice r.mode r.service
        (.num (r.areaSqFt.getD 0)) (.num (r.shrubCount.getD 0))
        (lowerStr (r.bedSize.getD "")) (lowerStr (r.material.getD "")))) := rfl
  have hprice : (engine r).price = .num ((⌊max 45 b + 1/2⌋ : ℤ) : ℚ) := by
    rw [hp, hb]; exact (round_max45 b).1
  have hp45 : 45 ≤ ⌊max 45 b + 1/2⌋ := (round_max45 b).2
  have hu5 : 5 ≤ (engine r).upsellPct := by
    have e2 : (engine r).upsellPct =
        max 5 (min 98 (if hasMatUpsell (lowerStr (r.material.getD "")) then
          (if hasRiskWord (lowerCat r.notes r.photoSummary) then 40 + 16 else 40) + 20
        else
          (if hasRiskWord (lowerCat r.notes r.photoSummary) then 40 + 16 else 40))) := rfl
    rw [e2]; exact le_max_left _ _
  have eu : (engine r).upsell = "+" ++ nToString (nround (nmul
      (.num (((engine r).upsellPct : ℚ) / 100)) ((engine r).price))) := rfl
  refine ⟨⌊max 45 b + 1/2⌋,
    ⌊((engine r).upsellPct : ℚ) / 100 * ((⌊max 45 b + 1/2⌋ : ℤ) : ℚ) + 1/2⌋,
    hprice, ?_, rfl, ?_⟩
  · rw [eu, hprice, nmul_num, nround_num, nToString_int]
  · rw [Int.le_floor]
    have h0 : (0 : ℚ) ≤ ((engine r).upsellPct : ℚ) / 100 *
        ((⌊max 45 b + 1/2⌋ : ℤ) : ℚ) := by
      apply mul_nonneg
      · apply div_nonneg _ (by norm_num)
        exact_mod_cast le_trans (by norm_num) hu5
      · exact_mod_cast le_trans (by norm_num) hp45
    push_cast
    linarith

/-- C7: for every `EstimateRequest` the response percentages are
integers (they inhabit `ℤ`) with `closePct ∈ [5,98]`,
`upsellPct ∈ [5,98]` and `riskPct ∈ [3,95]`. -/
theorem pct_fields_in_range (r : EstimateRequest) :
    5 ≤ (engine r).closePct ∧ (engine r).closePct ≤ 98 ∧
    5 ≤ (engine r).upsellPct ∧ (engine r).upsellPct ≤ 98 ∧
    3 ≤ (engine r).riskPct ∧ (engine r).riskPct ≤ 95 := by
  have e1 : (engine r).closePct = max 5 (min 98
      (if hasCleanWord (lowerCat r.notes r.photoSummary) then 72 + 10 else 72)) := rfl
  have e2 : (engine r).upsellPct =
      max 5 (min 98 (if hasMatUpsell (lowerStr (r.material.getD "")) then
        (if hasRiskWord (lowerCat r.notes r.photoSummary) then 40 + 16 else 40) + 20
      else
        (if hasRiskWord (lowerCat r.notes r.photoSummary) then 40 + 16 else 40))) := rfl
  have e3 : (engine r).riskPct = max 3 (min 95
      (if hasRiskWord (lowerCat r.notes r.photoSummary) then 18 + 18 else 18)) := rfl
  rw [e1, e2, e3]
  exact ⟨(clamp_bounds 5 98 _ (by norm_num)).1, (clamp_bounds 5 98 _ (by norm_num)).2,
    (clamp_bounds 5 98 _ (by norm_num)).1, (clamp_bounds 5 98 _ (by norm_num)).2,
    (clamp_bounds 3 95 _ (by norm_num)).1, (clamp_bounds 3 95 _ (by norm_num)).2⟩

/-- C8: when the lower-cased concatenated notes/photoSummary contains
`"overgrown"` and the lower-cased material contains neither `"premium"`
nor `"rock"`, the response has `riskPct = 36` (18 + 18) and
`upsellPct = 56` (40 + 16); both values lie inside the clamp ranges. -/
theorem overgrown_adjustment (r : EstimateRequest)
    (ho : strIncludes (lowerCat r.notes r.photoSummary) "overgrown" = true)
    (hp : strIncludes (lowerStr (r.material.getD "")) "premium" = false)
    (hr : strIncludes (lowerStr (r.material.getD "")) "rock" = false) :
    (engine r).riskPct = 36 ∧ (engine r).upsellPct = 56 := by
  have hrisk : hasRiskWord (lowerCat r.notes r.photoSummary) = true := by
    simp [hasRiskWord, ho]
  have hmat : hasMatUpsell (lowerStr (r.material.getD "")) = false := by
    simp [hasMatUpsell, hp, hr]
  have e2 : (engine r).upsellPct =
      max 5 (min 98 (if hasMatUpsell (lowerStr (r.material.getD "")) then
        (if hasRiskWord (lowerCat r.notes r.photoSummary) then 40 + 16 else 40) + 20
      else
        (if hasRiskWord (lowerCat r.notes r.photoSummary) then 40 + 16 else 40))) := rfl
  have e3 : (engine r).riskPct = max 3 (min 95
      (if hasRiskWord (lowerCat r.notes r.photoSummary) then 18 + 18 else 18)) := rfl
  constructor
  · rw [e3, hrisk]; decide
  · rw [e2, hmat, hrisk]; decide

theorem overgrown_adjustment_witness :
    (engine { notes := "overgrown lawn" }).riskPct = 36 ∧
      (engine { notes := "overgrown lawn" }).upsellPct = 56 :=
  overgrown_adjustment { notes := "overgrown lawn" } (by decide) (by decide) (by decide)

/-- C9: the response computation is deterministic — two invocations on
identical bodies produce identical results (the embedding is a pure
function of the body; the source computes `responseData` from the body
alone, with no randomness or clock access). -/
theorem engine_deterministic (b₁ b₂ : Body) (h : b₁ = b₂) : run b₁ = run b₂ := by
  rw [h]

theorem engine_deterministic_witness :
    run { mode := some "mowing" } = run { mode := some "mowing" } :=
  engine_deterministic _ _ rfl

/-- C10: the bedSize surcharge match is case-insensitive — `bedSize` is
lower-cased before comparison (line 88), so any spelling whose
lower-casing is `"large"` (such as `"Large"` or `"LARGE"`) receives the
+260 surcharge. -/
theorem bedSize_case_insensitive (r : EstimateRequest) (s : String) (c : ℚ)
    (hm : ¬(r.mode = "mowing" ∨ r.service = "mowing"))
    (hl : r.mode = "landscaping" ∨ r.service = "landscaping")
    (hb : r.bedSize = some s) (hs : lowerStr s = "large")
    (hc : r.shrubCount = some c) :
    (engine r).price = .num ((specLandscapingPrice "large"
        (lowerStr (r.material.getD "")) c : ℤ) : ℚ) ∧
      lowerStr "Large" = "large" ∧ lowerStr "LARGE" = "large" := by
  refine ⟨?_, by decide, by decide⟩
  have h := engine_land_price r c hm hl hc
  rw [hb] at h
  simp only [Option.getD_some] at h
  rw [hs] at h
  exact h

theorem bedSize_case_insensitive_witness :
    (engine { mode := "landscaping", bedSize := some "Large",
              shrubCount := some 0 }).price =
      .num ((specLandscapingPrice "large" "" 0 : ℤ) : ℚ) := by
  have h := (bedSize_case_insensitive
    { mode := "landscaping", bedSize := some "Large", shrubCount := some 0 }
    "Large" 0 (by decide) (Or.inl rfl) rfl (by decide) rfl).1
  simp only [Option.getD_none] at h
  rw [show lowerStr "" = "" from rfl] at h
  exact h

end Claims

end CardinalEstimate
